import Mathlib

/-!
# Verification of the App-Smart operations service

A shallow embedding of the App-Smart bookkeeping service:
the `OperationService` business-logic layer (create/list/stats for
financial operations), the `DatabaseStorage` query logic, and the
Express route handlers for login, admin setup and the operations
listing endpoint.

Numbers: the service manipulates amounts via JavaScript `parseFloat`,
`Number.prototype.toString` and `Number.prototype.toFixed(2)`.  We model
these with exact decimal arithmetic (a canonical scaled-integer decimal
`Dec`), i.e. the plain-decimal reading of the ECMAScript semantics;
binary double-precision representation error and exponent-form
rendering of extreme magnitudes are outside the model.

Strings: identifiers, emails, currency codes and amounts-as-stored are
Lean `String`s; database-generated ids and timestamps are modelled by
counters in the `Store` state.
-/

set_option autoImplicit false

namespace AppSmart

/-! ## Character and string utilities -/

/-- The decimal digit character for `d < 10` (defaulting to `'0'`). -/
def digitChar : Nat → Char
  | 0 => '0'
  | 1 => '1'
  | 2 => '2'
  | 3 => '3'
  | 4 => '4'
  | 5 => '5'
  | 6 => '6'
  | 7 => '7'
  | 8 => '8'
  | 9 => '9'
  | _ => '0'

/-- Accumulate the decimal digits of `n` in front of `acc`; `fuel`
    bounds the recursion (any `fuel > n` is enough). -/
def natDigitsAux : Nat → Nat → List Char → List Char
  | 0, _, acc => acc
  | fuel + 1, n, acc =>
    if n < 10 then digitChar n :: acc
    else natDigitsAux fuel (n / 10) (digitChar (n % 10) :: acc)

/-- Decimal rendering of a natural number, e.g. `natToStr 105 = "105"`. -/
def natToStr (n : Nat) : String :=
  String.mk (natDigitsAux (n + 1) n [])

/-- Left-pad a string with `'0'` up to length `len`. -/
def padZeros (len : Nat) (s : String) : String :=
  String.mk (List.replicate (len - s.length) '0') ++ s

/-- Uppercase an ASCII letter, leaving other characters alone. -/
def upperChar (c : Char) : Char :=
  if 'a' ≤ c && c ≤ 'z' then Char.ofNat (c.toNat - 32) else c

/-- Lowercase an ASCII letter, leaving other characters alone. -/
def lowerChar (c : Char) : Char :=
  if 'A' ≤ c && c ≤ 'Z' then Char.ofNat (c.toNat + 32) else c

/-- Models JavaScript `String.prototype.toUpperCase` (ASCII range). -/
def strUpper (s : String) : String :=
  String.mk (s.toList.map upperChar)

/-- Models JavaScript `String.prototype.toLowerCase` (ASCII range);
    also the case folding performed by SQL `ILIKE`. -/
def strLower (s : String) : String :=
  String.mk (s.toList.map lowerChar)

/-- Strip leading and trailing whitespace (JavaScript `parseInt` skips
    it before reading digits). -/
def strTrim (s : String) : String :=
  String.mk (((s.toList.dropWhile (·.isWhitespace)).reverse.dropWhile
    (·.isWhitespace)).reverse)

/-- Tests whether `n` is a prefix of `h` (on character lists). -/
def listPrefixAt : List Char → List Char → Bool
  | [], _ => true
  | _ :: _, [] => false
  | a :: as, b :: bs => a == b && listPrefixAt as bs

/-- Tests whether `n` occurs contiguously inside `h`. -/
def listInfixAt : List Char → List Char → Bool
  | n, [] => n.isEmpty
  | n, b :: bs => listPrefixAt n (b :: bs) || listInfixAt n bs

/-- Case-insensitive substring test: models SQL `ILIKE
    (percent ++ s ++ percent)` applied to column text `hay`
    (pattern metacharacters inside `s` are outside the model). -/
def containsCI (hay s : String) : Bool :=
  listInfixAt (strLower s).toList (strLower hay).toList

/-! ## Exact decimals: the model of JavaScript numbers

`Dec` is a canonical scaled decimal: value `num / 10 ^ exp` where,
after `reduceDec`, `num` is not divisible by 10 unless `exp = 0`.
All numbers produced by `parseFloat` on plain decimal literals are of
this form. -/

/-- A scaled decimal number: value is `num / 10 ^ exp`. -/
structure Dec where
  num : Int
  exp : Nat
deriving Repr, DecidableEq

/-- Strip factors of 10 shared between mantissa and scale, yielding the
    canonical form (the one JavaScript `toString` renders). -/
def reduceDec (num : Int) : Nat → Dec
  | 0 => ⟨num, 0⟩
  | e + 1 => if num % 10 == 0 then reduceDec (num / 10) e else ⟨num, e + 1⟩

/-- Fold decimal digit characters into a natural number. -/
def digitsToNat (ds : List Char) : Nat :=
  ds.foldl (fun acc c => acc * 10 + (c.toNat - 48)) 0

/-- Model of JavaScript `parseFloat` on plain decimal literals:
    optional sign, integer digits, optional fraction; `none` models
    `NaN`.  (Leading whitespace, exponent notation and trailing garbage
    tolerated by real `parseFloat` are outside the model.) -/
def parseFloatModel (s : String) : Option Dec :=
  let (neg, cs) :=
    match s.toList with
    | '-' :: rest => (true, rest)
    | '+' :: rest => (false, rest)
    | rest => (false, rest)
  let intDs := cs.takeWhile (·.isDigit)
  let afterInt := cs.dropWhile (·.isDigit)
  let sign : Nat → Int := fun n => if neg then -(n : Int) else (n : Int)
  match afterInt with
  | [] =>
    if intDs.isEmpty then none
    else some ⟨sign (digitsToNat intDs), 0⟩
  | '.' :: afterDot =>
    let fracDs := afterDot.takeWhile (·.isDigit)
    let rest := afterDot.dropWhile (·.isDigit)
    if (intDs.isEmpty && fracDs.isEmpty) || !rest.isEmpty then none
    else some (reduceDec (sign (digitsToNat (intDs ++ fracDs))) fracDs.length)
  | _ => none

/-- Model of JavaScript `Number.prototype.toString` on a canonical
    decimal (plain positional rendering; exponent form for extreme
    magnitudes is outside the model). -/
def numToString (d : Dec) : String :=
  let m := d.num.natAbs
  let sgn := if d.num < 0 then "-" else ""
  if d.exp == 0 then sgn ++ natToStr m
  else sgn ++ natToStr (m / 10 ^ d.exp) ++ "." ++
    padZeros d.exp (natToStr (m % 10 ^ d.exp))

/-- Model of JavaScript `Number.prototype.toFixed(2)` for non-negative
    values under exact decimal arithmetic: the integer `n` with
    `n / 100` closest to the value, larger `n` on ties (ECMAScript
    Number.prototype.toFixed), rendered with exactly two fraction
    digits. -/
def toFixed2 (d : Dec) : String :=
  let m := d.num.natAbs
  let p := 10 ^ d.exp
  let n := (200 * m + p) / (2 * p)
  let sgn := if d.num < 0 then "-" else ""
  sgn ++ natToStr (n / 100) ++ "." ++ padZeros 2 (natToStr (n % 100))

/-- Compares `d ≤ 0` on the represented value (`num / 10 ^ exp ≤ 0 ↔ num ≤ 0`). -/
def Dec.leZero (d : Dec) : Bool :=
  d.num ≤ 0

/-- Compares `n < d` on the represented value
    (`n < num / 10 ^ exp ↔ n * 10 ^ exp < num`). -/
def Dec.gtNat (d : Dec) (n : Nat) : Bool :=
  (n : Int) * 10 ^ d.exp < d.num

/-! ## Data model (shared/schema.ts) -/

/-- A row of the `users` table. -/
structure User where
  id : String
  email : String
  /-- The bcrypt password hash (an opaque string in the model). -/
  password : String
  role : String
deriving Repr, DecidableEq

/-- A row of the `operations` table.  `id` and `createdAt` are
    database-generated (uuid / `defaultNow()`), modelled as naturals
    drawn from the store's counters. -/
structure Operation where
  id : Nat
  type : String
  amount : String
  currency : String
  userId : String
  createdAt : Nat
deriving Repr, DecidableEq

/-- The database state: both tables plus the id / clock generators. -/
structure Store where
  users : List User
  operations : List Operation
  nextOpId : Nat
  nextUserId : Nat
  now : Nat
deriving Repr, DecidableEq

/-- Models `DatabaseStorage.getUserByEmail`: first user with exactly this
    email. -/
def getUserByEmail (st : Store) (email : String) : Option User :=
  st.users.find? (fun u => u.email == email)

/-! ## Operation service (services/operationService.ts) -/

/-- Input to `OperationService.createOperation`. -/
structure CreateOperationInput where
  type : String
  amount : String
  currency : String
  userId : String
deriving Repr, DecidableEq

/-- The service error kinds (`ValidationError`, `BusinessRuleError`,
    `TransactionError`), each carrying a message. -/
inductive OpError where
  | validation (msg : String)
  | businessRule (msg : String)
  | transaction (msg : String)
deriving Repr, DecidableEq

/-- Outcome of `createOperation`: the created row together with the
    post-transaction store, or a service error (the transaction rolls
    back, so the error outcome carries no store change). -/
inductive CreateResult where
  | ok (op : Operation) (st : Store)
  | error (e : OpError)
deriving Repr, DecidableEq

/-- Models `OperationService.isValidCurrency`: the fixed 12-code allow-list,
    checked against the uppercased code. -/
def isValidCurrency (currency : String) : Bool :=
  let validCurrencies :=
    ["USD", "EUR", "GBP", "JPY", "CAD", "AUD", "CHF", "CNY",
     "BTC", "ETH", "ADA", "SOL"]
  validCurrencies.contains (strUpper currency)

/-- One digit run (`\d+`) — nonempty, digits only. -/
def digitRun (cs : List Char) : Bool :=
  !cs.isEmpty && cs.all (·.isDigit)

/-- The regex `\d+(\.\d(1,maxFrac))?` anchored at both ends, as used by
    `isValidCurrencyPrecision` with `maxFrac` 8 (crypto) or 2 (fiat). -/
def matchesAmountPattern (s : String) (maxFrac : Nat) : Bool :=
  let cs := s.toList
  let intPart := cs.takeWhile (· != '.')
  match cs.dropWhile (· != '.') with
  | [] => digitRun intPart
  | '.' :: frac =>
    digitRun intPart && digitRun frac && decide (frac.length ≤ maxFrac)
  | _ => false

/-- Models `OperationService.isValidCurrencyPrecision`: regex test on
    `amount.toString()` — up to 8 fraction digits for the crypto codes,
    up to 2 otherwise. -/
def isValidCurrencyPrecision (amount : Dec) (currency : String) : Bool :=
  let cryptoCurrencies := ["BTC", "ETH", "ADA", "SOL"]
  if cryptoCurrencies.contains (strUpper currency) then
    matchesAmountPattern (numToString amount) 8
  else
    matchesAmountPattern (numToString amount) 2

/-- The count computed by the daily-limit subquery: the user's stored
    operations.  The query's `where` clause carries only the `userId`
    equality — the computed "today" is never applied as a date
    filter — so this is the user's all-time operation count. -/
def userOpCount (st : Store) (userId : String) : Nat :=
  (st.operations.filter (fun op => op.userId == userId)).length

/-- Models `OperationService.validateDailyLimits`: counts the user's stored
    operations — the query's `where` carries only the `userId` equality
    (the computed "today" is never applied as a filter) — and rejects at
    10; then rejects a single amount above 10,000. -/
def validateDailyLimits (st : Store) (userId : String) (amount : Dec) :
    Option OpError :=
  let dailyTotal := userOpCount st userId
  if 10 ≤ dailyTotal then
    some (.businessRule "Daily operation limit exceeded (10 operations per day)")
  else if amount.gtNat 10000 then
    some (.businessRule "Single operation amount exceeds daily limit ($10,000)")
  else
    none

/-- Models `OperationService.validateOperationData`, in source order: amount
    parses positive, precision rule, currency allow-list, type in
    BUY/SELL, then `validateDailyLimits`.  Returns the first error, if
    any. -/
def validateOperationData (st : Store) (data : CreateOperationInput) :
    Option OpError :=
  match parseFloatModel data.amount with
  | none => some (.validation "Amount must be a positive number greater than 0")
  | some amount =>
    if amount.leZero then
      some (.validation "Amount must be a positive number greater than 0")
    else if !isValidCurrencyPrecision amount data.currency then
      some (.validation ("Invalid amount precision for currency " ++ data.currency))
    else if !isValidCurrency data.currency then
      some (.validation ("Invalid currency code: " ++ data.currency))
    else if !(data.type == "BUY" || data.type == "SELL") then
      some (.validation "Operation type must be BUY or SELL")
    else
      validateDailyLimits st data.userId amount

/-- Models `OperationService.processOperationData`: amount re-parsed and fixed
    to 2 decimal places, currency uppercased. -/
def processOperationData (data : CreateOperationInput) : CreateOperationInput :=
  { type := data.type
    amount :=
      match parseFloatModel data.amount with
      | some d => toFixed2 d
      | none => "NaN"
    currency := strUpper data.currency
    userId := data.userId }

/-- Models `OperationService.createOperation`: inside one transaction,
    (1) `validateOperationData` (which ends with the daily-limit
    check), (2) the user-existence lookup, (3) `processOperationData`,
    (4) the insert returning the new row.  Any error rolls the
    transaction back, so an error outcome leaves the store unchanged. -/
def createOperation (st : Store) (data : CreateOperationInput) : CreateResult :=
  match validateOperationData st data with
  | some e => .error e
  | none =>
    match st.users.find? (fun u => u.id == data.userId) with
    | none => .error (.businessRule "User not found or inactive")
    | some _ =>
      let processed := processOperationData data
      let newOp : Operation :=
        { id := st.nextOpId
          type := processed.type
          amount := processed.amount
          currency := processed.currency
          userId := processed.userId
          createdAt := st.now }
      .ok newOp
        { st with
          operations := st.operations ++ [newOp]
          nextOpId := st.nextOpId + 1
          now := st.now + 1 }

/-- The store left behind by a `createOperation` request: updated on
    success, untouched on any error (transaction rollback). -/
def createOperationStore (st : Store) (data : CreateOperationInput) : Store :=
  match createOperation st data with
  | .ok _ st2 => st2
  | .error _ => st

/-! ## Query façade (getOperations / getOperationStats) -/

/-- Parameters of `getOperations`.  The optional filters are modelled
    as `Option String`, `none` standing for a JavaScript-falsy value
    (absent or empty string), for which the source pushes no
    condition. -/
structure GetOpsParams where
  userId : Option String
  type : Option String
  currency : Option String
  search : Option String
  page : Nat
  limit : Nat
deriving Repr, DecidableEq

/-- Result shape of `getOperations`. -/
structure GetOpsResult where
  operations : List Operation
  total : Nat
deriving Repr, DecidableEq

/-- The conjunction of the pushed `where` conditions of
    `getOperations`: `userId` equality when given; exact `type` match
    when given and not the "all-types" sentinel; likewise `currency`;
    and the `ILIKE` disjunction over currency, type and amount-as-text
    for a given `search`. -/
def opMatches (p : GetOpsParams) (op : Operation) : Bool :=
  (match p.userId with
   | none => true
   | some u => op.userId == u) &&
  (match p.type with
   | none => true
   | some t => if t == "all-types" then true else op.type == t) &&
  (match p.currency with
   | none => true
   | some c => if c == "all-currencies" then true else op.currency == c) &&
  (match p.search with
   | none => true
   | some s => containsCI op.currency s || containsCI op.type s ||
       containsCI op.amount s)

/-- Sort order of the listing query, `orderBy(desc(createdAt))`:
    `a` may come before `b` when `a.createdAt ≥ b.createdAt`. -/
def opDescRel (a b : Operation) : Prop :=
  b.createdAt ≤ a.createdAt

instance : DecidableRel opDescRel := fun a b =>
  inferInstanceAs (Decidable (b.createdAt ≤ a.createdAt))

instance : IsTotal Operation opDescRel :=
  ⟨fun a b => Nat.le_total b.createdAt a.createdAt⟩

instance : IsTrans Operation opDescRel :=
  ⟨fun _ _ _ h1 h2 => Nat.le_trans h2 h1⟩

/-- The `SELECT … ORDER BY created_at DESC` ordering of the filtered
    rows (a stable sort — row order among equal timestamps is the
    engine's deterministic choice, modelled as storage order). -/
def sortOpsDesc (l : List Operation) : List Operation :=
  l.insertionSort opDescRel

/-- Models `OperationService.getOperations` (same logic as
    `DatabaseStorage.getOperations`): one query selecting the filtered
    rows ordered by `createdAt` descending with `limit`/`offset`
    `(page - 1) * limit`, and one counting all filtered rows. -/
def getOperations (st : Store) (p : GetOpsParams) : GetOpsResult :=
  let offset := (p.page - 1) * p.limit
  let filtered := st.operations.filter (opMatches p)
  { operations := ((sortOpsDesc filtered).drop offset).take p.limit
    total := filtered.length }

/-- Result shape of `getOperationStats`. -/
structure OpStats where
  total : Nat
  buys : Nat
  sells : Nat
deriving Repr, DecidableEq

/-- Models `OperationService.getOperationStats` (same logic as
    `DatabaseStorage.getOperationStats`): three independent counts —
    all rows, BUY rows, SELL rows — each scoped to `userId` when one is
    given. -/
def getOperationStats (st : Store) (userId : Option String) : OpStats :=
  { total :=
      (st.operations.filter (fun op =>
        match userId with
        | none => true
        | some u => op.userId == u)).length
    buys :=
      (st.operations.filter (fun op =>
        match userId with
        | none => op.type == "BUY"
        | some u => op.userId == u && op.type == "BUY")).length
    sells :=
      (st.operations.filter (fun op =>
        match userId with
        | none => op.type == "SELL"
        | some u => op.userId == u && op.type == "SELL")).length }

/-! ## Route handlers (server/routes.ts) -/

/-- Response of `POST /api/auth/login` after the body-schema parse:
    a token (subject id and role signed by the JWT library, treated as
    a black box) with the public user summary, or a 401 with its
    message. -/
inductive LoginResult where
  | ok (tokenSub tokenRole : String) (id email role : String)
  | unauthorized (msg : String)
deriving Repr, DecidableEq

/-- The `POST /api/auth/login` handler after `loginSchema.parse`:
    look the user up by email — absent ⇒ 401; then bcrypt-compare the
    password (`compare` is the bcrypt black box) — mismatch ⇒ 401 with
    the same message; otherwise sign and return the token.  The 400
    `ZodError` branch precedes this and is out of scope (library). -/
def login (compare : String → String → Bool) (st : Store)
    (email password : String) : LoginResult :=
  match getUserByEmail st email with
  | none => .unauthorized "Invalid email or password"
  | some user =>
    if compare password user.password then
      .ok user.id user.role user.id user.email user.role
    else
      .unauthorized "Invalid email or password"

/-- Response of `POST /api/setup/admin`: 400 with a message, or 201
    with the created user's public summary and the new store. -/
inductive SetupResult where
  | badRequest (msg : String)
  | created (id email role : String) (st : Store)
deriving Repr, DecidableEq

/-- JavaScript truthiness of an optional string body field:
    absent (`undefined`) and the empty string are falsy. -/
def truthy : Option String → Bool
  | none => false
  | some s => !s.isEmpty

/-- The `POST /api/setup/admin` handler: 400 if email or password is
    falsy; 400 if a user with exactly this email exists; otherwise
    hash the password (`hash` is the bcrypt black box) and insert a
    user with role "admin", returning 201.  No check of
    `needsSetup` / existing user count appears anywhere on this path. -/
def setupAdmin (hash : String → String) (st : Store)
    (email password : Option String) : SetupResult :=
  if !truthy email || !truthy password then
    .badRequest "Email and password are required"
  else
    match email, password with
    | some e, some p =>
      match getUserByEmail st e with
      | some _ => .badRequest "User with this email already exists"
      | none =>
        let newUser : User :=
          { id := "user-" ++ natToStr st.nextUserId
            email := e
            password := hash p
            role := "admin" }
        .created newUser.id newUser.email newUser.role
          { st with
            users := st.users ++ [newUser]
            nextUserId := st.nextUserId + 1 }
    | _, _ => .badRequest "Email and password are required"

/-- Whether a `SetupResult` is the 400 branch. -/
def SetupResult.isBadRequest : SetupResult → Bool
  | .badRequest _ => true
  | .created _ _ _ _ => false

/-- Model of JavaScript `parseInt(s, 10)`: optional sign then leading
    decimal digits (trailing garbage ignored); `none` models `NaN`. -/
def parseIntJS (s : String) : Option Int :=
  let (neg, cs) :=
    match (strTrim s).toList with
    | '-' :: rest => (true, rest)
    | '+' :: rest => (false, rest)
    | rest => (false, rest)
  let ds := cs.takeWhile (·.isDigit)
  if ds.isEmpty then none
  else some (if neg then -(digitsToNat ds : Int) else (digitsToNat ds : Int))

/-- JavaScript `a < n` where `a` may be `NaN`: false on `NaN`. -/
def jsLtNum (a : Option Int) (n : Int) : Bool :=
  match a with
  | none => false
  | some v => v < n

/-- JavaScript `a > n` where `a` may be `NaN`: false on `NaN`. -/
def jsGtNum (a : Option Int) (n : Int) : Bool :=
  match a with
  | none => false
  | some v => n < v

/-- The pagination guard of `GET /api/operations`:
    `pageNum < 1 || limitNum < 1 || limitNum > 100` on the `parseInt`
    results, with JavaScript `NaN` comparison semantics. -/
def paginationGuard (page limit : String) : Bool :=
  jsLtNum (parseIntJS page) 1 || jsLtNum (parseIntJS limit) 1 ||
    jsGtNum (parseIntJS limit) 100

/-- Outcome of the pagination-parameter handling in
    `GET /api/operations`: a 400 rejection, or proceeding into the
    service call with the parsed (possibly `NaN`) page and limit. -/
inductive PaginationOutcome where
  | rejected
  | proceed (page limit : Option Int)
deriving Repr, DecidableEq

/-- The pagination-parameter step of the `GET /api/operations`
    handler. -/
def handlePagination (page limit : String) : PaginationOutcome :=
  if paginationGuard page limit then .rejected
  else .proceed (parseIntJS page) (parseIntJS limit)

/-! ## Claims about the create pipeline (C1–C4) -/

/-- C1: for a structurally valid request, a user that already owns 10
    or more stored operations — whatever calendar days their
    `createdAt` timestamps fall on, since the limit query applies no
    date filter — is rejected by `createOperation` with a
    `BusinessRuleError`; likewise a single amount exceeding 10,000 is
    rejected with a `BusinessRuleError`. -/
theorem createOperation_allTime_limit (st : Store) (data : CreateOperationInput)
    (d : Dec)
    (hparse : parseFloatModel data.amount = some d)
    (hpos : d.leZero = false)
    (hprec : isValidCurrencyPrecision d data.currency = true)
    (hcur : isValidCurrency data.currency = true)
    (htype : (data.type == "BUY" || data.type == "SELL") = true) :
    (10 ≤ userOpCount st data.userId →
      createOperation st data =
        CreateResult.error (OpError.businessRule
          "Daily operation limit exceeded (10 operations per day)")) ∧
    (userOpCount st data.userId < 10 → d.gtNat 10000 = true →
      createOperation st data =
        CreateResult.error (OpError.businessRule
          "Single operation amount exceeds daily limit ($10,000)")) := by
  constructor
  · intro h
    simp [createOperation, validateOperationData, hparse, hpos, hprec, hcur,
      htype, validateDailyLimits, h]
  · intro h1 h2
    simp [createOperation, validateOperationData, hparse, hpos, hprec, hcur,
      htype, validateDailyLimits, h2, Nat.not_le.mpr h1]

/-- A user on file for the concrete create-pipeline scenarios. -/
def c1User : User :=
  { id := "u1", email := "admin@app.com", password := "hash1", role := "admin" }

/-- Ten operations owned by `u1`, each created on a different calendar
    day (`createdAt` one day = 86400 apart). -/
def c1Ops : List Operation :=
  (List.range 10).map (fun i =>
    { id := i, type := "BUY", amount := "1.00", currency := "USD",
      userId := "u1", createdAt := i * 86400 })

/-- Store for the C1 witness: `u1` with 10 operations spread over 10
    distinct days. -/
def c1Store : Store :=
  { users := [c1User], operations := c1Ops, nextOpId := 10,
    nextUserId := 2, now := 1000000 }

/-- A structurally valid BUY request by `u1`. -/
def c1Data : CreateOperationInput :=
  { type := "BUY", amount := "5", currency := "USD", userId := "u1" }

/-- Witness for C1: the concrete 11th create is rejected with the
    limit `BusinessRuleError` although the 10 existing operations lie
    on 10 different days. -/
theorem createOperation_allTime_limit_witness :
    parseFloatModel c1Data.amount = some ⟨5, 0⟩ ∧
    (Dec.leZero ⟨5, 0⟩) = false ∧
    isValidCurrencyPrecision ⟨5, 0⟩ c1Data.currency = true ∧
    isValidCurrency c1Data.currency = true ∧
    (c1Data.type == "BUY" || c1Data.type == "SELL") = true ∧
    10 ≤ userOpCount c1Store c1Data.userId ∧
    createOperation c1Store c1Data =
      CreateResult.error (OpError.businessRule
        "Daily operation limit exceeded (10 operations per day)") :=
  ⟨by decide, by decide, by decide, by decide, by decide, by decide,
    (createOperation_allTime_limit c1Store c1Data ⟨5, 0⟩ (by decide) (by decide)
      (by decide) (by decide) (by decide)).1 (by decide)⟩

/-- Store for the C2 counterexample: no user at all. -/
def c2Store : Store :=
  { users := [], operations := [], nextOpId := 0, nextUserId := 0, now := 0 }

/-- A structurally valid request whose owning user does not exist and
    whose amount exceeds 10,000. -/
def c2Data : CreateOperationInput :=
  { type := "BUY", amount := "20000", currency := "USD", userId := "ghost" }

/-- Counterexample to C2: for a non-existent owning user the result is
    NOT always the referential `BusinessRuleError` — the daily-limit
    check runs inside `validateOperationData`, before the user lookup,
    so this request dies on the amount cap instead, and the referential
    message (which is "User not found or inactive", not "user not
    found") is never produced. -/
theorem createOperation_order_counterexample :
    c2Store.users.find? (fun u => u.id == c2Data.userId) = none ∧
    createOperation c2Store c2Data =
      CreateResult.error (OpError.businessRule
        "Single operation amount exceeds daily limit ($10,000)") ∧
    createOperation c2Store c2Data ≠
      CreateResult.error (OpError.businessRule "User not found or inactive") := by
  refine ⟨by decide, by decide, by decide⟩

/-- C2 (amended): `createOperation` short-circuits in the order
    structural validation (amount positivity, precision, currency,
    type), then — still inside validation — the daily-limit check, and
    only then the referential user-exists check; for a non-existent
    owning user whose request passes all of those earlier steps the
    result is `BusinessRuleError "User not found or inactive"`. -/
theorem createOperation_user_check_after_limits (st : Store)
    (data : CreateOperationInput) (d : Dec)
    (hparse : parseFloatModel data.amount = some d)
    (hpos : d.leZero = false)
    (hprec : isValidCurrencyPrecision d data.currency = true)
    (hcur : isValidCurrency data.currency = true)
    (htype : (data.type == "BUY" || data.type == "SELL") = true)
    (hcount : userOpCount st data.userId < 10)
    (hamt : d.gtNat 10000 = false)
    (huser : st.users.find? (fun u => u.id == data.userId) = none) :
    createOperation st data =
      CreateResult.error (OpError.businessRule "User not found or inactive") := by
  simp [createOperation, validateOperationData, hparse, hpos, hprec, hcur,
    htype, validateDailyLimits, hamt, Nat.not_le.mpr hcount, huser]

/-- Witness for the amended C2: a fresh user id with a modest valid
    request reaches the referential check and fails there. -/
theorem createOperation_user_check_after_limits_witness :
    parseFloatModel "5" = some ⟨5, 0⟩ ∧
    userOpCount c2Store "ghost" < 10 ∧
    (Dec.gtNat ⟨5, 0⟩ 10000) = false ∧
    c2Store.users.find? (fun u => u.id == "ghost") = none ∧
    createOperation c2Store
      { type := "BUY", amount := "5", currency := "USD", userId := "ghost" } =
      CreateResult.error (OpError.businessRule "User not found or inactive") :=
  ⟨by decide, by decide, by decide, by decide,
    createOperation_user_check_after_limits c2Store
      { type := "BUY", amount := "5", currency := "USD", userId := "ghost" }
      ⟨5, 0⟩ (by decide) (by decide) (by decide) (by decide) (by decide)
      (by decide) (by decide) (by decide)⟩

/-- C3: a fully valid request — type BUY/SELL, amount parsing to a
    positive decimal that passes its currency's precision class check,
    currency in the 12-code allow-list, existing owning user, fewer
    than 10 stored operations, amount at most 10,000 — succeeds, and
    the stored row carries the parsed amount fixed to 2 decimal places
    (`toFixed2`, crypto or not) and the currency uppercased. -/
theorem createOperation_success_normalizes (st : Store)
    (data : CreateOperationInput) (d : Dec) (u : User)
    (hparse : parseFloatModel data.amount = some d)
    (hpos : d.leZero = false)
    (hprec : isValidCurrencyPrecision d data.currency = true)
    (hcur : isValidCurrency data.currency = true)
    (htype : (data.type == "BUY" || data.type == "SELL") = true)
    (hcount : userOpCount st data.userId < 10)
    (hamt : d.gtNat 10000 = false)
    (huser : st.users.find? (fun us => us.id == data.userId) = some u) :
    createOperation st data =
      CreateResult.ok
        { id := st.nextOpId, type := data.type, amount := toFixed2 d,
          currency := strUpper data.currency, userId := data.userId,
          createdAt := st.now }
        { st with
          operations := st.operations ++
            [{ id := st.nextOpId, type := data.type, amount := toFixed2 d,
               currency := strUpper data.currency, userId := data.userId,
               createdAt := st.now }]
          nextOpId := st.nextOpId + 1
          now := st.now + 1 } := by
  simp [createOperation, validateOperationData, hparse, hpos, hprec, hcur,
    htype, validateDailyLimits, hamt, Nat.not_le.mpr hcount, huser,
    processOperationData]

/-- A second user on file for the C3 witness. -/
def c3User : User :=
  { id := "u2", email := "b@app.com", password := "hash2", role := "user" }

/-- Store for the C3 witness: two users, ten operations owned by
    `u1`, none by `u2`. -/
def c3Store : Store :=
  { users := [c1User, c3User], operations := c1Ops, nextOpId := 10,
    nextUserId := 3, now := 1000000 }

/-- An 8-decimal BTC request by `u2`. -/
def c3Data : CreateOperationInput :=
  { type := "SELL", amount := "12.345678", currency := "btc", userId := "u2" }

/-- The row C3's concrete request stores: amount fixed to 2 decimals,
    currency uppercased. -/
def c3NewOp : Operation :=
  { id := 10, type := "SELL", amount := "12.35", currency := "BTC",
    userId := "u2", createdAt := 1000000 }

/-- Witness for C3: an 8-decimal BTC amount is accepted and stored
    fixed to 2 decimals with the currency uppercased. -/
theorem createOperation_success_normalizes_witness :
    parseFloatModel c3Data.amount = some ⟨12345678, 6⟩ ∧
    isValidCurrencyPrecision ⟨12345678, 6⟩ c3Data.currency = true ∧
    isValidCurrency c3Data.currency = true ∧
    userOpCount c3Store c3Data.userId < 10 ∧
    createOperation c3Store c3Data =
      CreateResult.ok c3NewOp
        { users := [c1User, c3User], operations := c1Ops ++ [c3NewOp],
          nextOpId := 11, nextUserId := 3, now := 1000001 } :=
  ⟨by decide, by decide, by decide, by decide, by
    have h := createOperation_success_normalizes c3Store c3Data
      ⟨12345678, 6⟩ c3User (by decide) (by decide) (by decide) (by decide)
      (by decide) (by decide) (by decide) (by decide)
    exact h.trans (by decide)⟩

/-- C4: an amount string that does not parse as a number, or parses to
    a value at most 0, makes `createOperation` fail with the positivity
    `ValidationError`, and the operation store is left unchanged — no
    record is inserted. -/
theorem createOperation_nonpositive_rejected (st : Store)
    (data : CreateOperationInput)
    (h : parseFloatModel data.amount = none ∨
      ∃ d, parseFloatModel data.amount = some d ∧ d.leZero = true) :
    createOperation st data =
      CreateResult.error (OpError.validation
        "Amount must be a positive number greater than 0") ∧
    createOperationStore st data = st := by
  have hmain : createOperation st data =
      CreateResult.error (OpError.validation
        "Amount must be a positive number greater than 0") := by
    rcases h with h | ⟨d, hd, hd0⟩
    · simp [createOperation, validateOperationData, h]
    · simp [createOperation, validateOperationData, hd, hd0]
  exact ⟨hmain, by simp [createOperationStore, hmain]⟩

/-- Witness for C4: a non-numeric amount and a negative amount are
    both rejected with the `ValidationError` and write nothing. -/
theorem createOperation_nonpositive_rejected_witness :
    (parseFloatModel "abc" = none ∧
      createOperation c1Store
        { type := "BUY", amount := "abc", currency := "USD", userId := "u1" } =
        CreateResult.error (OpError.validation
          "Amount must be a positive number greater than 0") ∧
      createOperationStore c1Store
        { type := "BUY", amount := "abc", currency := "USD", userId := "u1" } =
        c1Store) ∧
    (parseFloatModel "-3.5" = some ⟨-35, 1⟩ ∧
      createOperation c1Store
        { type := "BUY", amount := "-3.5", currency := "USD", userId := "u1" } =
        CreateResult.error (OpError.validation
          "Amount must be a positive number greater than 0") ∧
      createOperationStore c1Store
        { type := "BUY", amount := "-3.5", currency := "USD", userId := "u1" } =
        c1Store) :=
  ⟨⟨by decide,
    createOperation_nonpositive_rejected c1Store
      { type := "BUY", amount := "abc", currency := "USD", userId := "u1" }
      (Or.inl (by decide))⟩,
   ⟨by decide,
    createOperation_nonpositive_rejected c1Store
      { type := "BUY", amount := "-3.5", currency := "USD", userId := "u1" }
      (Or.inr ⟨⟨-35, 1⟩, by decide, by decide⟩)⟩⟩

/-! ## Claims about the query façade (C5–C7) -/

/-- C5: with `page ≥ 1` and `1 ≤ limit ≤ 100`, the listing returns the
    slice of the descending-sorted filtered rows at offset
    `(page - 1) * limit`, at most `limit` entries, ordered by
    `createdAt` descending, while `total` is the full filtered count,
    independent of `page` and `limit`. -/
theorem getOperations_pagination (st : Store) (p : GetOpsParams)
    (_hp : 1 ≤ p.page) (_hl1 : 1 ≤ p.limit) (_hl2 : p.limit ≤ 100) :
    (getOperations st p).total = (st.operations.filter (opMatches p)).length ∧
    (getOperations st p).operations =
      ((sortOpsDesc (st.operations.filter (opMatches p))).drop
        ((p.page - 1) * p.limit)).take p.limit ∧
    (getOperations st p).operations.length =
      min p.limit
        ((st.operations.filter (opMatches p)).length -
          (p.page - 1) * p.limit) ∧
    List.Pairwise (fun a b => b.createdAt ≤ a.createdAt)
      (getOperations st p).operations ∧
    (∀ page2 limit2 : Nat,
      (getOperations st
        { p with page := page2, limit := limit2 }).total =
        (getOperations st p).total) := by
  refine ⟨rfl, rfl, ?_, ?_, fun page2 limit2 => rfl⟩
  · simp [getOperations, sortOpsDesc, List.length_take, List.length_drop,
      List.length_insertionSort]
  · have hs : List.Sorted opDescRel
        (sortOpsDesc (st.operations.filter (opMatches p))) :=
      List.sorted_insertionSort opDescRel _
    have hsub : List.Sublist (getOperations st p).operations
        (sortOpsDesc (st.operations.filter (opMatches p))) :=
      (List.take_sublist _ _).trans (List.drop_sublist _ _)
    exact List.Pairwise.sublist hsub hs

/-- Twenty-five operations owned by `u1` with distinct timestamps. -/
def c5Ops : List Operation :=
  (List.range 25).map (fun i =>
    { id := i, type := if i % 2 == 0 then "BUY" else "SELL",
      amount := "1.00", currency := if i % 3 == 0 then "USD" else "EUR",
      userId := "u1", createdAt := i })

/-- Store for the listing witnesses. -/
def c5Store : Store :=
  { users := [c1User], operations := c5Ops, nextOpId := 25,
    nextUserId := 2, now := 25 }

/-- First page of ten over `u1`'s operations, no optional filters. -/
def c5P1 : GetOpsParams :=
  { userId := some "u1", type := none, currency := none, search := none,
    page := 1, limit := 10 }

/-- Third page of ten over `u1`'s operations. -/
def c5P3 : GetOpsParams :=
  { userId := some "u1", type := none, currency := none, search := none,
    page := 3, limit := 10 }

/-- Witness for C5: on 25 matching records with `limit = 10`, page 1
    returns 10 items with `total = 25`, page 3 returns the remaining 5,
    and page 1 is sorted by `createdAt` descending. -/
theorem getOperations_pagination_witness :
    (1 ≤ c5P1.page ∧ 1 ≤ c5P1.limit ∧ c5P1.limit ≤ 100) ∧
    (getOperations c5Store c5P1).total = 25 ∧
    (getOperations c5Store c5P1).operations.length = 10 ∧
    (getOperations c5Store c5P3).total = 25 ∧
    (getOperations c5Store c5P3).operations.length = 5 ∧
    List.Pairwise (fun a b => b.createdAt ≤ a.createdAt)
      (getOperations c5Store c5P1).operations :=
  ⟨⟨by decide, by decide, by decide⟩, by decide, by decide, by decide,
    by decide,
    (getOperations_pagination c5Store c5P1 (by decide) (by decide)
      (by decide)).2.2.2.1⟩

/-- C6: every returned item satisfies all supplied filters
    conjunctively — it is owned by the mandatory `userId`, matches the
    exact `type` filter and exact `currency` filter when those are
    given (and are not the all-sentinel values), and when a search
    string is given it matches it as a case-insensitive substring of
    its currency, its type, or its amount text. -/
theorem getOperations_filters_conjunctive (st : Store) (p : GetOpsParams)
    (uid : String) (hu : p.userId = some uid) :
    ∀ op ∈ (getOperations st p).operations,
      op.userId = uid ∧
      (∀ t, p.type = some t → t ≠ "all-types" → op.type = t) ∧
      (∀ c, p.currency = some c → c ≠ "all-currencies" → op.currency = c) ∧
      (∀ s, p.search = some s →
        (containsCI op.currency s = true ∨ containsCI op.type s = true ∨
          containsCI op.amount s = true)) := by
  intro op hop
  have hmem : op ∈ st.operations.filter (opMatches p) := by
    have h1 : op ∈ sortOpsDesc (st.operations.filter (opMatches p)) :=
      ((List.take_sublist _ _).trans (List.drop_sublist _ _)).subset hop
    exact (List.mem_insertionSort _).1 h1
  have hmatch : opMatches p op = true := (List.mem_filter.mp hmem).2
  rw [opMatches, hu] at hmatch
  simp only [Bool.and_eq_true] at hmatch
  obtain ⟨⟨⟨h1, h2⟩, h3⟩, h4⟩ := hmatch
  refine ⟨by simpa using h1, ?_, ?_, ?_⟩
  · intro t ht hne
    rw [ht] at h2
    have hf : (t == "all-types") = false := by simpa using hne
    simp [hf] at h2
    exact h2
  · intro c hc hne
    rw [hc] at h3
    have hf : (c == "all-currencies") = false := by simpa using hne
    simp [hf] at h3
    exact h3
  · intro s hs
    rw [hs] at h4
    simpa [Bool.or_eq_true, or_assoc] using h4

/-- Listing parameters exercising every filter at once. -/
def c6Params : GetOpsParams :=
  { userId := some "u1", type := some "BUY", currency := some "USD",
    search := some "us", page := 1, limit := 10 }

/-- Witness for C6: with type, currency and search filters all given,
    every returned item is `u1`'s, is a BUY, has currency USD and
    matches "us" case-insensitively; the result is also non-empty, so
    the conjunction is exercised on an actual item. -/
theorem getOperations_filters_conjunctive_witness :
    c6Params.userId = some "u1" ∧
    (getOperations c5Store c6Params).operations ≠ [] ∧
    (∀ op ∈ (getOperations c5Store c6Params).operations,
      op.userId = "u1" ∧
      (∀ t, c6Params.type = some t → t ≠ "all-types" → op.type = t) ∧
      (∀ c, c6Params.currency = some c → c ≠ "all-currencies" →
        op.currency = c) ∧
      (∀ s, c6Params.search = some s →
        (containsCI op.currency s = true ∨ containsCI op.type s = true ∨
          containsCI op.amount s = true))) :=
  ⟨rfl, by decide,
    getOperations_filters_conjunctive c5Store c6Params "u1" rfl⟩

/-- Partition of a filtered count by the BUY/SELL dichotomy: when every
    row's type is BUY or SELL, the rows passing `cond` split exactly
    into those passing `cond` that are BUY and those that are SELL. -/
theorem count_partition (cond : Operation → Bool) (l : List Operation)
    (h : ∀ op ∈ l, op.type = "BUY" ∨ op.type = "SELL") :
    (l.filter cond).length =
      (l.filter (fun op => cond op && op.type == "BUY")).length +
      (l.filter (fun op => cond op && op.type == "SELL")).length := by
  induction l with
  | nil => simp
  | cons a l ih =>
    have ha := h a (List.mem_cons_self a l)
    have hl : ∀ op ∈ l, op.type = "BUY" ∨ op.type = "SELL" :=
      fun op hop => h op (List.mem_cons_of_mem a hop)
    rcases ha with ha | ha <;> cases hc : cond a <;>
      simp [List.filter_cons, hc, ha, ih hl] <;> omega

/-- C7: when every stored operation's type is BUY or SELL, the stats
    counts satisfy `total = buys + sells`, both scoped to one `userId`
    and unscoped. -/
theorem getOperationStats_total_eq (st : Store) (userId : Option String)
    (h : ∀ op ∈ st.operations, op.type = "BUY" ∨ op.type = "SELL") :
    (getOperationStats st userId).total =
      (getOperationStats st userId).buys +
        (getOperationStats st userId).sells := by
  cases userId with
  | none =>
    have hpart := count_partition (fun _ => true) st.operations h
    simpa [getOperationStats, Bool.true_and] using hpart
  | some u =>
    have hpart := count_partition (fun op => op.userId == u) st.operations h
    simpa [getOperationStats] using hpart

/-- Witness for C7: on the 25-row fixture the identity holds both
    scoped to `u1` and unscoped. -/
theorem getOperationStats_total_eq_witness :
    (∀ op ∈ c5Store.operations, op.type = "BUY" ∨ op.type = "SELL") ∧
    (getOperationStats c5Store (some "u1")).total =
      (getOperationStats c5Store (some "u1")).buys +
        (getOperationStats c5Store (some "u1")).sells ∧
    (getOperationStats c5Store none).total =
      (getOperationStats c5Store none).buys +
        (getOperationStats c5Store none).sells :=
  ⟨by decide,
    getOperationStats_total_eq c5Store (some "u1") (by decide),
    getOperationStats_total_eq c5Store none (by decide)⟩

/-! ## Claims about the route handlers (C8–C10) -/

/-- C8: a login with a stored user's email but a failing password
    check and a login with an email matching no stored user produce
    identical responses — the same 401 message — and neither issues a
    token, so the caller cannot tell whether the email exists. -/
theorem login_no_user_enumeration (compare : String → String → Bool)
    (st : Store) (e1 p1 e2 p2 : String) (u : User)
    (h1 : getUserByEmail st e1 = some u)
    (h2 : compare p1 u.password = false)
    (h3 : getUserByEmail st e2 = none) :
    login compare st e1 p1 =
      LoginResult.unauthorized "Invalid email or password" ∧
    login compare st e2 p2 = login compare st e1 p1 ∧
    (∀ ts tr i em r, login compare st e1 p1 ≠ LoginResult.ok ts tr i em r) := by
  have ha : login compare st e1 p1 =
      LoginResult.unauthorized "Invalid email or password" := by
    simp [login, h1, h2]
  have hb : login compare st e2 p2 =
      LoginResult.unauthorized "Invalid email or password" := by
    simp [login, h3]
  exact ⟨ha, hb.trans ha.symm, fun ts tr i em r => by simp [ha]⟩

/-- A concrete stand-in for the bcrypt comparison black box. -/
def cCompare (p h : String) : Bool :=
  (p ++ "#hashed") == h

/-- The stored user for the login witness: the hash only matches the
    password "secret" under `cCompare`. -/
def c8User : User :=
  { id := "u1", email := "admin@app.com", password := "secret#hashed",
    role := "admin" }

/-- Store for the login witness. -/
def c8Store : Store :=
  { users := [c8User], operations := [], nextOpId := 0, nextUserId := 2,
    now := 0 }

/-- Witness for C8: wrong password for a stored email and an unknown
    email yield byte-identical 401 responses. -/
theorem login_no_user_enumeration_witness :
    getUserByEmail c8Store "admin@app.com" = some c8User ∧
    cCompare "wrong" "secret#hashed" = false ∧
    getUserByEmail c8Store "ghost@app.com" = none ∧
    login cCompare c8Store "admin@app.com" "wrong" =
      LoginResult.unauthorized "Invalid email or password" ∧
    login cCompare c8Store "ghost@app.com" "whatever" =
      login cCompare c8Store "admin@app.com" "wrong" :=
  ⟨by decide, by decide, by decide,
    (login_no_user_enumeration cCompare c8Store "admin@app.com" "wrong"
      "ghost@app.com" "whatever" c8User (by decide) (by decide)
      (by decide)).1,
    (login_no_user_enumeration cCompare c8Store "admin@app.com" "wrong"
      "ghost@app.com" "whatever" c8User (by decide) (by decide)
      (by decide)).2.1⟩

/-- C9: `POST /api/setup/admin` answers 400 exactly when email or
    password is missing/empty or a user with exactly that email already
    exists; in every other state — however many users exist, whether or
    not setup was already performed — it creates a new user with role
    "admin".  The endpoint is never closed after first use. -/
theorem setupAdmin_never_closed (hash : String → String) (st : Store)
    (email password : Option String) :
    ((setupAdmin hash st email password).isBadRequest = true ↔
      truthy email = false ∨ truthy password = false ∨
        (∃ e, email = some e ∧ getUserByEmail st e ≠ none)) ∧
    (∀ e p, email = some e → password = some p →
      truthy email = true → truthy password = true →
      getUserByEmail st e = none →
      setupAdmin hash st email password =
        SetupResult.created ("user-" ++ natToStr st.nextUserId) e "admin"
          { st with
            users := st.users ++
              [{ id := "user-" ++ natToStr st.nextUserId, email := e,
                 password := hash p, role := "admin" }]
            nextUserId := st.nextUserId + 1 }) := by
  constructor
  · cases email with
    | none => simp [setupAdmin, truthy, SetupResult.isBadRequest]
    | some e =>
      cases password with
      | none => simp [setupAdmin, truthy, SetupResult.isBadRequest]
      | some p =>
        cases he : e.isEmpty <;> cases hp : p.isEmpty <;>
          cases hfind : getUserByEmail st e <;>
            simp [setupAdmin, truthy, SetupResult.isBadRequest, he, hp, hfind]
  · intro e p he hp hte htp hfind
    subst he; subst hp
    have he2 : e.isEmpty = false := by simpa [truthy] using hte
    have hp2 : p.isEmpty = false := by simpa [truthy] using htp
    simp [setupAdmin, truthy, he2, hp2, hfind]

/-- A concrete stand-in for the bcrypt hashing black box. -/
def cHash (p : String) : String :=
  p ++ "#hashed"

/-- The admin row the C9 witness request creates. -/
def c9NewUser : User :=
  { id := "user-2", email := "second@app.com", password := "pw2#hashed",
    role := "admin" }

/-- The store produced by the C9 witness request: the new admin is
    appended although a user already existed. -/
def c9ResultStore : Store :=
  { users := [c1User, c9NewUser], operations := c1Ops, nextOpId := 10,
    nextUserId := 3, now := 1000000 }

/-- Witness for C9: on a store that already has a user (setup long
    done), a fresh email still creates a second admin — and the 400
    characterization is exercised on the same state. -/
theorem setupAdmin_never_closed_witness :
    c1Store.users ≠ [] ∧
    truthy (some "second@app.com") = true ∧
    getUserByEmail c1Store "second@app.com" = none ∧
    setupAdmin cHash c1Store (some "second@app.com") (some "pw2") =
      SetupResult.created "user-2" "second@app.com" "admin" c9ResultStore :=
  ⟨by decide, by decide, by decide,
    ((setupAdmin_never_closed cHash c1Store (some "second@app.com")
      (some "pw2")).2 "second@app.com" "pw2" rfl rfl (by decide) (by decide)
      (by decide)).trans (by decide)⟩

/-- C10: the 400 "Invalid pagination parameters" rejection of
    `GET /api/operations` fires exactly when the parsed page is a
    number below 1 or the parsed limit is a number below 1 or above
    100; when a parameter does not parse (`parseInt` gives `NaN`),
    every comparison in the guard is false, so the request proceeds
    with the non-numeric values. -/
theorem paginationGuard_nan_passes (page limit : String) :
    (handlePagination page limit = PaginationOutcome.rejected ↔
      (∃ n, parseIntJS page = some n ∧ n < 1) ∨
      (∃ m, parseIntJS limit = some m ∧ (m < 1 ∨ 100 < m))) ∧
    (parseIntJS page = none → parseIntJS limit = none →
      handlePagination page limit = PaginationOutcome.proceed none none) := by
  have hguard : paginationGuard page limit = true ↔
      (∃ n, parseIntJS page = some n ∧ n < 1) ∨
      (∃ m, parseIntJS limit = some m ∧ (m < 1 ∨ 100 < m)) := by
    cases hp : parseIntJS page <;> cases hl : parseIntJS limit <;>
      simp [paginationGuard, jsLtNum, jsGtNum, hp, hl, or_assoc]
  have hrej : handlePagination page limit = PaginationOutcome.rejected ↔
      paginationGuard page limit = true := by
    cases hg : paginationGuard page limit <;> simp [handlePagination, hg]
  refine ⟨hrej.trans hguard, fun h1 h2 => ?_⟩
  simp [handlePagination, paginationGuard, jsLtNum, jsGtNum, h1, h2]

/-- Witness for C10: non-numeric page and limit sail through the
    guard, while a numeric page below 1 and a numeric limit above 100
    are rejected. -/
theorem paginationGuard_nan_passes_witness :
    parseIntJS "abc" = none ∧
    parseIntJS "xyz" = none ∧
    handlePagination "abc" "xyz" = PaginationOutcome.proceed none none ∧
    handlePagination "0" "10" = PaginationOutcome.rejected ∧
    handlePagination "2" "200" = PaginationOutcome.rejected :=
  ⟨by decide, by decide,
    (paginationGuard_nan_passes "abc" "xyz").2 (by decide) (by decide),
    by decide, by decide⟩

end AppSmart
